import Mathlib

/-!
Verification development for the download job tracker of the `ctonew`
repository.  The JavaScript sources are embedded shallowly: each JS `Map` is
modelled as an association list over `String` keys with JS insertion-order
`set` semantics, every record that JS code mutates in place is a Lean
structure rewritten functionally, and wall-clock times (`Date.now()`,
`new Date()`) are explicit `Nat` millisecond parameters.
-/

set_option autoImplicit false

namespace Ctonew

/-! ## JS `Map` model

`mapGet`/`mapSet`/`mapDelete` mirror `Map.get`/`Map.set`/`Map.delete`:
`set` replaces the value of an existing key in place and appends a fresh key,
`get` returns the unique entry for the key (keys are unique by construction).
-/

def mapGet {α : Type} : List (String × α) → String → Option α
  | [], _ => none
  | (k0, v) :: rest, k => if k0 = k then some v else mapGet rest k

def mapSet {α : Type} : List (String × α) → String → α → List (String × α)
  | [], k, v => [(k, v)]
  | (k0, v0) :: rest, k, v =>
      if k0 = k then (k, v) :: rest else (k0, v0) :: mapSet rest k v

def mapDelete {α : Type} : List (String × α) → String → List (String × α)
  | [], _ => []
  | (k0, v0) :: rest, k =>
      if k0 = k then mapDelete rest k else (k0, v0) :: mapDelete rest k

/-! ## `src/services/downloader.js` — DownloaderService

The `downloadStatus` objects stored in `activeDownloads`
(`downloadVideo`, lines 124–135) and passed to progress callbacks. -/

structure DlStatus where
  id : String := ""
  status : String := "downloading"
  progress : Nat := 0
  speed : Nat := 0
  eta : Nat := 0
  total_bytes : Nat := 0
  downloaded_bytes : Nat := 0
  filename : String := ""
  format : String := ""
  createdAt : Nat := 0
  error : Option String := none
  deriving DecidableEq

/-- Terminal statuses, as enumerated at `downloader.js` line 213 and
`progressTracker.js` line 46. -/
def isTerminal (s : String) : Bool :=
  s = "completed" || s = "failed" || s = "cancelled"

structure DownloaderService where
  activeDownloads : List (String × DlStatus) := []
  progressCallbacks : List String := []
  deriving DecidableEq

/-- `downloader.js` lines 186–189: `getProgress` returns a copy of the stored
status, or `null` when the id is unknown. -/
def DownloaderService.getProgress (svc : DownloaderService) (downloadId : String) :
    Option DlStatus :=
  mapGet svc.activeDownloads downloadId

/-- `downloader.js` lines 196–204: `cancelDownload` mutates the status to
`cancelled` and returns `true` only when the job exists and is currently
`downloading`; otherwise it changes nothing and returns `false`. -/
def DownloaderService.cancelDownload (svc : DownloaderService) (downloadId : String) :
    DownloaderService × Bool :=
  match mapGet svc.activeDownloads downloadId with
  | some status =>
      if status.status = "downloading" then
        ({ svc with
            activeDownloads :=
              mapSet svc.activeDownloads downloadId { status with status := "cancelled" },
            progressCallbacks := svc.progressCallbacks.filter (fun c => c ≠ downloadId) },
         true)
      else (svc, false)
  | none => (svc, false)

/-- The removal condition of the retention sweep, `downloader.js`
lines 213–214: a terminal status whose `createdAt` is more than `maxAge`
milliseconds in the past. -/
def staleEntry (maxAge now : Nat) (p : String × DlStatus) : Bool :=
  isTerminal p.2.status && decide (maxAge < now - p.2.createdAt)

/-- `downloader.js` lines 210–220: the retention sweep removes every stale
entry together with its progress callback.  Note the age is measured from
`createdAt`: the record carries no `updatedAt` field. -/
def DownloaderService.cleanup (svc : DownloaderService) (maxAge now : Nat) :
    DownloaderService :=
  { activeDownloads := svc.activeDownloads.filter (fun p => !staleEntry maxAge now p),
    progressCallbacks := svc.progressCallbacks.filter (fun c =>
      !((svc.activeDownloads.filter (staleEntry maxAge now)).map Prod.fst).contains c) }

/-- `downloader.js` lines 146–147: the completion path of `downloadVideo`
sets `status = completed` and forces `progress = 100`. -/
def markCompleted (s : DlStatus) : DlStatus :=
  { s with status := "completed", progress := 100 }

/-! ## `src/services/progressTracker.js` — ProgressTracker

The SSE client objects come from `routes/api.js` lines 191–217: `id` is the
download id the connection subscribes to and doubles as the map key in
`sseClients`; `handle` stands for the underlying `res` connection, so two
client objects for the same job are distinguishable. -/

structure PTClient where
  id : String := ""
  handle : Nat := 0
  writableEnded : Bool := false
  deriving DecidableEq

structure ProgressTracker where
  sseClients : List (String × PTClient) := []
  progressData : List (String × DlStatus) := []
  deriving DecidableEq

/-- Result of one `updateProgress` call: the new tracker state, the list of
`(connection handle, data)` SSE writes performed, and whether the deferred
(`setTimeout`, 5 s) removal of the entry was scheduled because the reported
status was terminal. -/
structure UpdateOutcome where
  tracker : ProgressTracker
  deliveries : List (Nat × DlStatus)
  cleanupScheduled : Bool
  deriving DecidableEq

/-- `progressTracker.js` lines 14–17: `addSSEClient` stores the client under
`client.id`; a `Map.set` on an existing key replaces the previous client. -/
def ProgressTracker.addSSEClient (t : ProgressTracker) (client : PTClient) :
    ProgressTracker :=
  { t with sseClients := mapSet t.sseClients client.id client }

/-- `progressTracker.js` lines 23–28. -/
def ProgressTracker.removeSSEClient (t : ProgressTracker) (clientId : String) :
    ProgressTracker :=
  { t with sseClients := mapDelete t.sseClients clientId }

/-- `progressTracker.js` lines 35–52: `updateProgress` stores the reported
data verbatim, writes it to the single client registered under `downloadId`
(if any), and, when the reported status is terminal, schedules the deferred
removal of both entries. -/
def ProgressTracker.updateProgress (t : ProgressTracker) (downloadId : String)
    (progressData : DlStatus) : UpdateOutcome :=
  let t1 : ProgressTracker :=
    { t with progressData := mapSet t.progressData downloadId progressData }
  let deliveries :=
    match mapGet t1.sseClients downloadId with
    | some client => [(client.handle, progressData)]
    | none => []
  { tracker := t1, deliveries := deliveries,
    cleanupScheduled := isTerminal progressData.status }

/-- `progressTracker.js` lines 88–90. -/
def ProgressTracker.getProgress (t : ProgressTracker) (downloadId : String) :
    Option DlStatus :=
  mapGet t.progressData downloadId

/-! ## `src/routes/api.js` — HTTP routes

JSON response bodies are flattened into one structure; fields a given
response does not set stay `none`.  `timestamp` fields are omitted: they
carry no information the claims mention. -/

structure ApiResponse where
  statusCode : Nat := 200
  success : Bool := true
  message : Option String := none
  error : Option String := none
  code : Option String := none
  downloadId : Option String := none
  data : Option DlStatus := none
  filename : Option String := none
  size : Option Nat := none
  format : Option String := none
  deriving DecidableEq

/-- `express-validator` `isUUID` as applied by `param('id').isUUID()`:
36 characters, hyphens at positions 8, 13, 18 and 23, hex digits elsewhere. -/
def isUUID (s : String) : Bool :=
  let l := s.toList
  l.length = 36 &&
    (List.range 36).all fun i =>
      match l[i]? with
      | none => false
      | some c =>
          if i = 8 || i = 13 || i = 18 || i = 23 then c = '-'
          else c.isDigit || ('a' ≤ c && c ≤ 'f') || ('A' ≤ c && c ≤ 'F')

/-- `middleware/validation.js` lines 9–21: the 400 sent by `validateRequest`
when a validation rule fails. -/
def validationFailedResponse : ApiResponse :=
  { statusCode := 400, success := false, error := some "Validation failed",
    code := some "VALIDATION_ERROR" }

/-- `routes/api.js` lines 265–300: `GET /api/progress/:id/status`.  After the
`isUUID` validation, an id unknown to the store yields a 404 with
`DOWNLOAD_NOT_FOUND`; a known id yields 200 with the status snapshot. -/
def progressStatusRoute (svc : DownloaderService) (downloadId : String) : ApiResponse :=
  if !isUUID downloadId then validationFailedResponse
  else
    match svc.getProgress downloadId with
    | none =>
        { statusCode := 404, success := false,
          error := some "Download ID not found", code := some "DOWNLOAD_NOT_FOUND" }
    | some progress =>
        { statusCode := 200, success := true, data := some progress }

/-- `routes/api.js` lines 303–344: `POST /api/cancel/:id`.  When
`cancelDownload` returns `true` the route answers 200; otherwise it answers
400 with `CANCEL_FAILED`.  (The `notifyCancellation` side effect only touches
SSE clients, not the job store.) -/
def cancelRoute (svc : DownloaderService) (downloadId : String) :
    DownloaderService × ApiResponse :=
  if !isUUID downloadId then (svc, validationFailedResponse)
  else
    let r := svc.cancelDownload downloadId
    if r.2 then
      (r.1, { statusCode := 200, success := true,
              message := some "Download cancelled successfully",
              downloadId := some downloadId })
    else
      (r.1, { statusCode := 400, success := false,
              error := some "Download not found or cannot be cancelled",
              code := some "CANCEL_FAILED" })

/-- The value `downloadVideo` resolves with on completion
(`downloader.js` lines 152–158). -/
structure DownloadResult where
  downloadId : String := ""
  filename : String := ""
  size : Nat := 0
  format : String := ""
  deriving DecidableEq

/-- The settled outcome of `await Promise.race([downloadPromise,
timeoutPromise])` in `routes/api.js` line 85. -/
inductive DownloadOutcome where
  | success (result : DownloadResult)
  | failure (message : String)
  deriving DecidableEq

/-- `routes/api.js` lines 69–109: `POST /api/download/video` awaits the
settled download outcome and only then responds; the 200 body is built from
the completed result, including its `filename` and `size`. -/
def apiDownloadVideoRespond : DownloadOutcome → ApiResponse
  | .success result =>
      { statusCode := 200, success := true,
        message := some "Download started successfully",
        downloadId := some result.downloadId,
        filename := some result.filename,
        size := some result.size, format := some result.format }
  | .failure msg =>
      { statusCode := 400, success := false, error := some msg,
        code := some "VIDEO_DOWNLOAD_FAILED" }

/-! ## `src/ctonew/server.js` — asynchronous variant

`progressStore` entries (lines 47–51, 62–68, 72–78, 82–86). -/

structure CtonewProgress where
  progress : Nat := 0
  status : String := ""
  message : String := ""
  speed : Option Nat := none
  eta : Option Nat := none
  filename : Option String := none
  filepath : Option String := none
  deriving DecidableEq

/-- The progress object the runner passes to `onProgress`; `percent` may be
absent. -/
structure RunnerProgress where
  percent : Option Nat := none
  status : Option String := none
  speed : Option Nat := none
  eta : Option Nat := none
  deriving DecidableEq

/-- `ctonew/server.js` lines 47–51: the record written when the job is
created, before the response is sent. -/
def ctonewCreateJob (store : List (String × CtonewProgress)) (downloadId : String) :
    List (String × CtonewProgress) :=
  mapSet store downloadId
    { progress := 0, status := "starting", message := "准备下载..." }

/-- `ctonew/server.js` lines 53–56: the acceptance body sent before the
download starts — only the id and a fixed message, no completion data. -/
structure CtonewAccept where
  downloadId : String
  message : String
  deriving DecidableEq

def ctonewAcceptResponse (downloadId : String) : CtonewAccept :=
  { downloadId := downloadId,
    message := "下载任务已创建，请通过进度接口查询下载状态" }

/-- `ctonew/server.js` lines 61–69: the `onProgress` store write;
`progress.percent || 0` reads 0 when the runner reported no percentage. -/
def ctonewOnProgress (store : List (String × CtonewProgress)) (downloadId : String)
    (p : RunnerProgress) : List (String × CtonewProgress) :=
  mapSet store downloadId
    { progress := p.percent.getD 0, status := "downloading",
      message := p.status.getD "下载中...", speed := p.speed, eta := p.eta }

/-- `ctonew/server.js` lines 71–79: the `.then` store write on completion. -/
def ctonewOnComplete (store : List (String × CtonewProgress)) (downloadId : String)
    (filename filepath : String) : List (String × CtonewProgress) :=
  mapSet store downloadId
    { progress := 100, status := "completed", message := "下载完成",
      filename := some filename, filepath := some filepath }

/-- `ctonew/server.js` lines 80–87: the `.catch` store write on any runner
failure — status `error`, the error message, and `progress` reset to 0. -/
def ctonewOnError (store : List (String × CtonewProgress)) (downloadId : String)
    (errMessage : String) : List (String × CtonewProgress) :=
  mapSet store downloadId
    { progress := 0, status := "error", message := errMessage }

/-! ## `src/server.js` — streaming variant

`downloadStatus` records and `DownloaderService.updateStatus`. -/

/-- A record in the `downloadStatus` map of `src/server.js`.  Every field is
optional: a JS object holds exactly the fields some update has set.  The same
shape doubles as the `updates` argument of `updateStatus`. -/
structure StatusRec where
  id : Option String := none
  status : Option String := none
  filename : Option String := none
  title : Option String := none
  progress : Option Nat := none
  downloaded : Option Nat := none
  total : Option Nat := none
  speed : Option Nat := none
  error : Option String := none
  startTime : Option Nat := none
  updatedAt : Option Nat := none
  deriving DecidableEq

/-- JS object spread `{ ...current, ...updates }` on one field: the update
wins when it carries the field. -/
def jsOverride {α : Type} : Option α → Option α → Option α
  | some v, _ => some v
  | none, cur => cur

/-- `server.js` line 300: `{ ...currentStatus, ...updates, updatedAt: new Date() }`. -/
def mergeStatus (cur upd : StatusRec) (now : Nat) : StatusRec :=
  { id := jsOverride upd.id cur.id,
    status := jsOverride upd.status cur.status,
    filename := jsOverride upd.filename cur.filename,
    title := jsOverride upd.title cur.title,
    progress := jsOverride upd.progress cur.progress,
    downloaded := jsOverride upd.downloaded cur.downloaded,
    total := jsOverride upd.total cur.total,
    speed := jsOverride upd.speed cur.speed,
    error := jsOverride upd.error cur.error,
    startTime := jsOverride upd.startTime cur.startTime,
    updatedAt := some now }

/-- `server.js` lines 298–302: `updateStatus` reads the current record (an
empty object when absent), merges the updates over it unconditionally, stamps
`updatedAt`, and stores the result.  There is no check of the current
status. -/
def updateStatus (st : List (String × StatusRec)) (downloadId : String)
    (updates : StatusRec) (now : Nat) : List (String × StatusRec) :=
  let currentStatus := (mapGet st downloadId).getD {}
  mapSet st downloadId (mergeStatus currentStatus updates now)

/-- `server.js` line 159, inside the stream `progress` handler:
`totalBytes > 0 ? Math.round((downloadedBytes / totalBytes) * 100) : 0`.
`Math.round(100 * d / t)` is embedded as exact rational rounding
`⌊100 d / t + 1/2⌋ = (200 d + t) / (2 t)` in `Nat` arithmetic. -/
def progressPercentJs (downloadedBytes totalBytes : Nat) : Nat :=
  if 0 < totalBytes then (200 * downloadedBytes + totalBytes) / (2 * totalBytes) else 0

/-- `server.js` lines 157–167: the updates object built by the stream
`progress` handler.  The `progress` field is always present — 0 stands in
when `totalBytes` is unknown. -/
def progressEventUpd (downloadedBytes totalBytes speed : Nat) : StatusRec :=
  { progress := some (progressPercentJs downloadedBytes totalBytes),
    downloaded := some downloadedBytes,
    total := some totalBytes,
    speed := some speed }

/-! ## `src/unnamed/part_004` — sanitizeFilename

Strings are handled as `List Char`; `String.slice(0, 120)` is `take 120`. -/

/-- The character class of the first `replace` at `part_004` line 14:
backslash, slash, colon, star, question mark, double quote, angle brackets,
pipe, and the C0 controls U+0000–U+001F. -/
def forbiddenChar (c : Char) : Bool :=
  c = '\\' || c = '/' || c = ':' || c = '*' || c = '?' || c = '"' ||
  c = '<' || c = '>' || c = '|' || c.toNat < 0x20

/-- The JS regex class `\s` (ECMAScript WhiteSpace and LineTerminator). -/
def jsWhitespace (c : Char) : Bool :=
  c = ' ' || c.toNat = 0x09 || c.toNat = 0x0A || c.toNat = 0x0B ||
  c.toNat = 0x0C || c.toNat = 0x0D || c.toNat = 0xA0 || c.toNat = 0x1680 ||
  (0x2000 ≤ c.toNat && c.toNat ≤ 0x200A) || c.toNat = 0x2028 ||
  c.toNat = 0x2029 || c.toNat = 0x202F || c.toNat = 0x205F ||
  c.toNat = 0x3000 || c.toNat = 0xFEFF

/-- `replace(/\s+/g, ' ')`: every maximal whitespace run becomes one space. -/
def collapseWs : List Char → List Char
  | [] => []
  | [c] => if jsWhitespace c then [' '] else [c]
  | c1 :: c2 :: rest =>
      if jsWhitespace c1 && jsWhitespace c2 then collapseWs (c2 :: rest)
      else (if jsWhitespace c1 then ' ' else c1) :: collapseWs (c2 :: rest)

/-- JS `String.trim()`. -/
def jsTrim (l : List Char) : List Char :=
  ((l.dropWhile jsWhitespace).reverse.dropWhile jsWhitespace).reverse

/-- `part_004` lines 11–18: `sanitizeFilename`.  A falsy input (absent or
empty title) yields `"download"`; otherwise forbidden characters become `_`,
whitespace runs collapse to single spaces, the result is trimmed and cut to
120 characters. -/
def sanitizeFilename (input : List Char) : List Char :=
  if input.isEmpty then "download".toList
  else
    (jsTrim (collapseWs (input.map fun c => if forbiddenChar c then '_' else c))).take 120

/-! ## Spec-side trace model for C5

The code's job records carry no `updatedAt`, so the time of a job's last
mutation must be read off a trace of store events.  `applyEvent` performs
each mutation exactly as the source does (creation stamps `createdAt`,
`downloader.js` line 134; completion touches no timestamp, lines 146–147);
`lastUpdatedAt` is the spec's notion of the job's last-update time. -/

inductive StoreEvent where
  | create (downloadId : String) (s : DlStatus) (time : Nat)
  | complete (downloadId : String) (time : Nat)
  deriving DecidableEq

def applyEvent (svc : DownloaderService) : StoreEvent → DownloaderService
  | .create downloadId s time =>
      let s2 : DlStatus := { s with createdAt := time }
      { svc with activeDownloads := mapSet svc.activeDownloads downloadId s2 }
  | .complete downloadId _time =>
      match mapGet svc.activeDownloads downloadId with
      | some s =>
          { svc with
            activeDownloads := mapSet svc.activeDownloads downloadId (markCompleted s) }
      | none => svc

def applyEvents (svc : DownloaderService) (events : List StoreEvent) :
    DownloaderService :=
  events.foldl applyEvent svc

def eventId : StoreEvent → String
  | .create downloadId _ _ => downloadId
  | .complete downloadId _ => downloadId

def eventTime : StoreEvent → Nat
  | .create _ _ time => time
  | .complete _ time => time

/-- Spec-side `updatedAt`: the time of the last trace event touching the job. -/
def lastUpdatedAt (events : List StoreEvent) (downloadId : String) : Option Nat :=
  (events.filter fun e => eventId e = downloadId).foldl
    (fun _ e => some (eventTime e)) none

/-! ## Concrete instances used by the claim theorems -/

/-- A well-formed v4-style UUID, the shape of every id `generateDownloadId`
issues. -/
def uuidA : String := "123e4567-e89b-12d3-a456-426614174000"

/-- A terminal record of the `src/server.js` store. -/
def c1Before : StatusRec :=
  { id := some "job1", status := some "completed", progress := some 100,
    updatedAt := some 10 }

/-- A late runner update arriving after the terminal state. -/
def c1Upd : StatusRec :=
  { status := some "downloading", progress := some 50 }

def c2First : DlStatus := { id := "j", status := "downloading", progress := 50 }

def c2Second : DlStatus := { id := "j", status := "downloading", progress := 30 }

def c3Start : DownloaderService :=
  { activeDownloads := [(uuidA, { id := uuidA, status := "downloading" })] }

def c3CancelledSvc : DownloaderService :=
  { activeDownloads := [(uuidA, { id := uuidA, status := "cancelled" })] }

def c4Result : DownloadResult :=
  { downloadId := uuidA, filename := "Sample_Video_Title_best.mp4",
    size := 104857600, format := "best" }

/-- C5 trace: creation at 0 ms, completion at 100 ms. -/
def c5Events : List StoreEvent :=
  [.create "j" { id := "j" } 0, .complete "j" 100]

def c5Svc : DownloaderService :=
  { activeDownloads := [("j", { id := "j", status := "completed", createdAt := 0 })] }

def c8After50 : List (String × CtonewProgress) :=
  ctonewOnProgress (ctonewCreateJob [] "1700000000000") "1700000000000"
    { percent := some 50 }

def c9ClientA : PTClient := { id := "j", handle := 1 }

def c9ClientB : PTClient := { id := "j", handle := 2 }

def c9Tracker : ProgressTracker :=
  ProgressTracker.addSSEClient (ProgressTracker.addSSEClient {} c9ClientA) c9ClientB

def c9Data : DlStatus := { id := "j", status := "downloading", progress := 10 }

/-! ## Map lemmas -/

theorem mapGet_mapSet_self {α : Type} (m : List (String × α)) (k : String) (v : α) :
    mapGet (mapSet m k v) k = some v := by
  induction m with
  | nil => simp [mapSet, mapGet]
  | cons hd tl ih =>
      obtain ⟨k0, v0⟩ := hd
      by_cases h : k0 = k
      · simp [mapSet, mapGet, h]
      · simp [mapSet, mapGet, h, ih]

theorem mapGet_mapSet_ne {α : Type} (m : List (String × α)) (k k2 : String) (v : α)
    (h : k2 ≠ k) : mapGet (mapSet m k v) k2 = mapGet m k2 := by
  have hkk2 : k ≠ k2 := Ne.symm h
  induction m with
  | nil => simp [mapSet, mapGet, hkk2]
  | cons hd tl ih =>
      obtain ⟨k0, v0⟩ := hd
      by_cases hk : k0 = k
      · subst hk
        simp [mapSet, mapGet, hkk2]
      · by_cases hk2 : k0 = k2 <;> simp [mapSet, mapGet, hk, hk2, h, ih]

theorem mapGet_eq_none_of_not_mem {α : Type} (m : List (String × α)) (k : String)
    (h : k ∉ m.map Prod.fst) : mapGet m k = none := by
  induction m with
  | nil => rfl
  | cons hd tl ih =>
      obtain ⟨k0, v0⟩ := hd
      simp only [List.map_cons, List.mem_cons, not_or] at h
      have hne : k0 ≠ k := fun h2 => h.1 h2.symm
      simp [mapGet, hne, ih h.2]

/-- `mapGet` through `List.filter` when the keys are unique: the looked-up
entry survives exactly when the filter keeps it. -/
theorem mapGet_filter {α : Type} (p : String × α → Bool) (m : List (String × α))
    (k : String) (v : α) (hnd : (m.map Prod.fst).Nodup) (hv : mapGet m k = some v) :
    mapGet (m.filter p) k = if p (k, v) then some v else none := by
  induction m with
  | nil => simp [mapGet] at hv
  | cons hd tl ih =>
      obtain ⟨k0, v0⟩ := hd
      simp only [List.map_cons, List.nodup_cons] at hnd
      by_cases hk : k0 = k
      · subst hk
        simp only [mapGet, if_pos rfl] at hv
        cases hv
        by_cases hp : p (k0, v) = true
        · simp [List.filter_cons, hp, mapGet]
        · have hkeys : k0 ∉ (List.filter p tl).map Prod.fst := by
            intro hmem
            obtain ⟨q, hq, hq1⟩ := List.mem_map.mp hmem
            exact hnd.1 (List.mem_map.mpr ⟨q, List.mem_of_mem_filter hq, hq1⟩)
          simp [List.filter_cons, hp, mapGet_eq_none_of_not_mem _ _ hkeys]
      · simp only [mapGet, if_neg hk] at hv
        by_cases hp : p (k0, v0) = true <;>
          simp [List.filter_cons, hp, mapGet, hk, ih hnd.2 hv]

/-! ## sanitizeFilename lemmas -/

theorem mem_collapseWs : ∀ (l : List Char) (c : Char),
    c ∈ collapseWs l → c = ' ' ∨ c ∈ l
  | [], c, h => by simp [collapseWs] at h
  | [c1], c, h => by
      by_cases hw : jsWhitespace c1 = true <;>
        simp only [collapseWs, hw, if_true, if_false, Bool.false_eq_true,
          List.mem_singleton] at h <;> simp [h]
  | c1 :: c2 :: rest, c, h => by
      by_cases hw : (jsWhitespace c1 && jsWhitespace c2) = true
      · rcases mem_collapseWs (c2 :: rest) c (by
          simpa only [collapseWs, hw, if_true] using h) with h1 | h1
        · exact Or.inl h1
        · exact Or.inr (List.mem_cons_of_mem _ h1)
      · simp only [collapseWs, hw, if_false, Bool.false_eq_true, List.mem_cons] at h
        rcases h with h1 | h1
        · by_cases hw1 : jsWhitespace c1 = true
          · simp only [hw1, if_true] at h1
            exact Or.inl h1
          · simp only [hw1, if_false, Bool.false_eq_true] at h1
            exact Or.inr (h1 ▸ List.mem_cons_self _ _)
        · rcases mem_collapseWs (c2 :: rest) c h1 with h2 | h2
          · exact Or.inl h2
          · exact Or.inr (List.mem_cons_of_mem _ h2)

theorem mem_jsTrim {c : Char} {l : List Char} (h : c ∈ jsTrim l) : c ∈ l := by
  have h1 : c ∈ (l.dropWhile jsWhitespace).reverse.dropWhile jsWhitespace :=
    List.mem_reverse.mp h
  have h2 : c ∈ (l.dropWhile jsWhitespace).reverse :=
    (List.dropWhile_sublist _).subset h1
  have h3 : c ∈ l.dropWhile jsWhitespace := List.mem_reverse.mp h2
  exact (List.dropWhile_sublist _).subset h3

theorem forbidden_free_after_replace (input : List Char) {c : Char}
    (h : c ∈ input.map fun c0 => if forbiddenChar c0 then '_' else c0) :
    forbiddenChar c = false := by
  obtain ⟨c0, _, rfl⟩ := List.mem_map.mp h
  by_cases hf : forbiddenChar c0 = true
  · simp only [hf, if_true]
    decide
  · simp [hf]

/-! ## Claim theorems -/

/-- C10: `sanitizeFilename` always returns at most 120 characters, none of
which is one of the forbidden filename characters or a C0 control, and an
empty (falsy) input yields the fixed name `download` — so the
`Content-Disposition` attachment filename built from its result is always
well-formed. -/
theorem c10_sanitizeFilename_wellformed (input : List Char) :
    (sanitizeFilename input).length ≤ 120 ∧
    (sanitizeFilename input).all (fun c => !forbiddenChar c) = true ∧
    sanitizeFilename [] = "download".toList := by
  refine ⟨?_, ?_, rfl⟩
  · by_cases he : input.isEmpty = true
    · simp only [sanitizeFilename, he, if_true]
      decide
    · simp only [sanitizeFilename, he, if_false, Bool.false_eq_true]
      simp [List.length_take]
  · by_cases he : input.isEmpty = true
    · simp only [sanitizeFilename, he, if_true]
      decide
    · simp only [sanitizeFilename, he, if_false, Bool.false_eq_true, List.all_eq_true]
      intro c hc
      have hmem : c ∈ jsTrim (collapseWs
          (input.map fun c0 => if forbiddenChar c0 then '_' else c0)) :=
        (List.take_sublist _ _).subset hc
      rcases mem_collapseWs _ c (mem_jsTrim hmem) with rfl | hmem2
      · decide
      · simp [forbidden_free_after_replace input hmem2]

/-- C1 counterexample: a record that already reached `completed` is not left
unchanged by a later `updateStatus` call — the late update is merged in and
the stored status re-enters `downloading`. -/
theorem c1_counterexample :
    mapGet (updateStatus [("job1", c1Before)] "job1" c1Upd 20) "job1"
      ≠ some c1Before ∧
    (mapGet (updateStatus [("job1", c1Before)] "job1" c1Upd 20) "job1").map
        StatusRec.status = some (some "downloading") := by
  decide

/-- C1 (amended): `updateStatus` has no terminal-state guard.  Even when the
stored record is terminal, a late update is merged field-by-field over it and
stored — it is applied, not dropped, and can move the status back to a
non-terminal value. -/
theorem c1_late_update_applied (st : List (String × StatusRec))
    (downloadId : String) (cur upd : StatusRec) (now : Nat)
    (hcur : mapGet st downloadId = some cur)
    (hterm : isTerminal ((cur.status).getD "") = true) :
    mapGet (updateStatus st downloadId upd now) downloadId
      = some (mergeStatus cur upd now) := by
  simp [updateStatus, hcur, mapGet_mapSet_self]

/-- C1 witness: the amended theorem applied to the concrete terminal record. -/
theorem c1_late_update_applied_witness :
    mapGet [("job1", c1Before)] "job1" = some c1Before ∧
    isTerminal ((c1Before.status).getD "") = true ∧
    mapGet (updateStatus [("job1", c1Before)] "job1" c1Upd 20) "job1"
      = some (mergeStatus c1Before c1Upd 20) :=
  ⟨by decide, by decide,
    c1_late_update_applied [("job1", c1Before)] "job1" c1Before c1Upd 20
      (by decide) (by decide)⟩

/-- C2 counterexample: the tracker accepts a regressive progress report and
stores it verbatim — the stored progress drops from 50 to 30, so the store
does not clamp out-of-order values. -/
theorem c2_counterexample :
    (((({} : ProgressTracker).updateProgress "j" c2First).tracker.updateProgress
        "j" c2Second).tracker.getProgress "j").map DlStatus.progress = some 30 ∧
    ((({} : ProgressTracker).updateProgress "j" c2First).tracker.getProgress
        "j").map DlStatus.progress = some 50 := by
  decide

/-- C2 (amended): `updateProgress` stores each reported record verbatim —
last write wins, with no clamping and no terminal-state freeze — so the
stored `progressPercent` is non-decreasing only when the runner's own reports
are. -/
theorem c2_last_write_wins (t : ProgressTracker) (downloadId : String)
    (progressData : DlStatus) :
    ((t.updateProgress downloadId progressData).tracker.getProgress downloadId)
      = some progressData := by
  simp [ProgressTracker.updateProgress, ProgressTracker.getProgress,
    mapGet_mapSet_self]

/-- C3 counterexample: the first cancel of a `downloading` job answers 200,
but the second cancel of the same job leaves the service unchanged and is
answered 400 (`CANCEL_FAILED`), not 200. -/
theorem c3_counterexample :
    (cancelRoute c3Start uuidA).2.statusCode = 200 ∧
    (cancelRoute (cancelRoute c3Start uuidA).1 uuidA).2.statusCode = 400 ∧
    (cancelRoute (cancelRoute c3Start uuidA).1 uuidA).2.success = false ∧
    (cancelRoute (cancelRoute c3Start uuidA).1 uuidA).1
      = (cancelRoute c3Start uuidA).1 := by
  decide

/-- C3 (amended): cancelling a job that is not currently `downloading` — in
particular one already cancelled or otherwise terminal — is a no-op on the
store, but the route reports it as a 400 `CANCEL_FAILED` error rather than a
200 success. -/
theorem c3_second_cancel_rejected (svc : DownloaderService) (downloadId : String)
    (s : DlStatus) (hu : isUUID downloadId = true)
    (hs : mapGet svc.activeDownloads downloadId = some s)
    (hterm : s.status ≠ "downloading") :
    svc.cancelDownload downloadId = (svc, false) ∧
    (cancelRoute svc downloadId).1 = svc ∧
    (cancelRoute svc downloadId).2.statusCode = 400 ∧
    (cancelRoute svc downloadId).2.success = false := by
  have h1 : svc.cancelDownload downloadId = (svc, false) := by
    simp [DownloaderService.cancelDownload, hs, hterm]
  refine ⟨h1, ?_, ?_, ?_⟩ <;> simp [cancelRoute, hu, h1]

/-- C3 witness: the amended theorem applied to a job already cancelled. -/
theorem c3_second_cancel_rejected_witness :
    isUUID uuidA = true ∧
    mapGet c3CancelledSvc.activeDownloads uuidA
      = some { id := uuidA, status := "cancelled" } ∧
    ({ id := uuidA, status := "cancelled" } : DlStatus).status ≠ "downloading" ∧
    (cancelRoute c3CancelledSvc uuidA).2.statusCode = 400 :=
  ⟨by decide, by decide, by decide,
    (c3_second_cancel_rejected c3CancelledSvc uuidA
      { id := uuidA, status := "cancelled" } (by decide) (by decide)
      (by decide)).2.2.1⟩

/-- C4: evaluating `POST /api/download/video` of `routes/api.js` at a settled
download: the response is a function of the completed result and its body
carries the completion-only `filename` and `size` — the handler waited for
the download instead of answering with just a job id, while the asynchronous
`ctonew/server.js` acceptance body carries only the id and a fixed message. -/
theorem c4_response_carries_completion_data :
    (apiDownloadVideoRespond (.success c4Result)).filename
      = some "Sample_Video_Title_best.mp4" ∧
    (apiDownloadVideoRespond (.success c4Result)).size = some 104857600 ∧
    (apiDownloadVideoRespond (.success c4Result)).filename ≠ none ∧
    ctonewAcceptResponse uuidA
      = { downloadId := uuidA,
          message := "下载任务已创建，请通过进度接口查询下载状态" } := by
  decide

/-- C5 counterexample: a job created at 0 ms and completed at 100 ms — so
last updated 50 ms before a sweep at 150 ms, well inside `maxAge = 100` ms —
is nevertheless removed by the sweep and no longer retrievable, because the
sweep measures age from `createdAt`, not from the last update. -/
theorem c5_counterexample :
    lastUpdatedAt c5Events "j" = some 100 ∧
    150 - 100 ≤ 100 ∧
    ((applyEvents {} c5Events).getProgress "j").map DlStatus.status
      = some "completed" ∧
    ((applyEvents {} c5Events).cleanup 100 150).getProgress "j" = none := by
  decide

/-- C5 (amended): the sweep removes exactly the terminal jobs whose
`createdAt` — not the time of their last update, which the record does not
store — is more than `maxAge` in the past; any other job, in particular every
non-terminal one, stays retrievable unchanged. -/
theorem c5_sweep_uses_createdAt (svc : DownloaderService) (downloadId : String)
    (s : DlStatus) (maxAge now : Nat)
    (hnd : (svc.activeDownloads.map Prod.fst).Nodup)
    (hs : svc.getProgress downloadId = some s) :
    (svc.cleanup maxAge now).getProgress downloadId
      = if isTerminal s.status && decide (maxAge < now - s.createdAt) then none
        else some s := by
  unfold DownloaderService.getProgress at hs
  unfold DownloaderService.cleanup DownloaderService.getProgress
  rw [mapGet_filter _ _ _ _ hnd hs]
  by_cases hstale : staleEntry maxAge now (downloadId, s) = true <;>
    simp only [staleEntry] at hstale <;> simp [staleEntry, hstale]

/-- C5 witness: the amended theorem applied to a stale completed job. -/
theorem c5_sweep_uses_createdAt_witness :
    (c5Svc.activeDownloads.map Prod.fst).Nodup ∧
    c5Svc.getProgress "j" = some { id := "j", status := "completed", createdAt := 0 } ∧
    (c5Svc.cleanup 100 150).getProgress "j" = none :=
  ⟨by decide, by decide, by
    rw [c5_sweep_uses_createdAt c5Svc "j"
      { id := "j", status := "completed", createdAt := 0 } 100 150
      (by decide) (by decide)]
    decide⟩

/-- C6: for an id that passes the route's UUID validation but is unknown to
the store, the store's `getProgress` returns `none` (JS `null`) and the
status route answers 404 with a `DOWNLOAD_NOT_FOUND` error body — an
ordinary response, not an exception. -/
theorem c6_unknown_id_not_found (svc : DownloaderService) (downloadId : String)
    (hu : isUUID downloadId = true)
    (habs : mapGet svc.activeDownloads downloadId = none) :
    svc.getProgress downloadId = none ∧
    progressStatusRoute svc downloadId
      = { statusCode := 404, success := false,
          error := some "Download ID not found",
          code := some "DOWNLOAD_NOT_FOUND" } := by
  refine ⟨habs, ?_⟩
  simp [progressStatusRoute, hu, DownloaderService.getProgress, habs]

/-- C6 witness: the theorem applied to the empty store and a concrete UUID. -/
theorem c6_unknown_id_not_found_witness :
    isUUID uuidA = true ∧
    mapGet ({} : DownloaderService).activeDownloads uuidA = none ∧
    (progressStatusRoute {} uuidA).statusCode = 404 :=
  ⟨by decide, rfl, by
    rw [(c6_unknown_id_not_found {} uuidA (by decide) rfl).2]⟩

/-- C7 counterexample: when `totalBytes` is unknown (0), the stream progress
handler's update carries `progress = some 0` — a spurious zero percentage
standing in for an indeterminate one, not an absent field. -/
theorem c7_counterexample :
    (progressEventUpd 500 0 0).progress = some 0 ∧
    (progressEventUpd 500 0 0).progress ≠ none := by
  decide

/-- C7 (amended): the stream progress handler always sets the `progress`
field — the rounded `bytesDownloaded / bytesTotal * 100` when `bytesTotal` is
known, and the literal 0 when it is unknown — and `updateStatus` stores that
value, so a consumer observes 0 both for "0 percent" and for
"indeterminate". -/
theorem c7_progress_always_present (st : List (String × StatusRec))
    (downloadId : String) (d t sp now : Nat) :
    (mapGet (updateStatus st downloadId (progressEventUpd d t sp) now)
        downloadId).map StatusRec.progress
      = some (some (progressPercentJs d t)) ∧
    progressPercentJs d 0 = 0 := by
  constructor
  · simp [updateStatus, mapGet_mapSet_self, mergeStatus, progressEventUpd, jsOverride]
  · rfl

/-- C8 counterexample: a ctonew job at 50 percent whose runner then fails:
the `.catch` write stores status `error` and resets `progress` to 0 — a
progress regression artifact left by the failure path. -/
theorem c8_counterexample :
    (mapGet c8After50 "1700000000000").map CtonewProgress.progress = some 50 ∧
    (mapGet (ctonewOnError c8After50 "1700000000000" "spawn yt-dlp ENOENT")
        "1700000000000").map CtonewProgress.progress = some 0 ∧
    (mapGet (ctonewOnError c8After50 "1700000000000" "spawn yt-dlp ENOENT")
        "1700000000000").map CtonewProgress.status = some "error" := by
  decide

/-- C8 (amended): every runner failure in the ctonew variant funnels into a
single store write carrying status `error` (not `failed`) and the error's
message verbatim — but that write also resets `progress` to 0, so a failure
does leave a progress regression artifact; the `services/downloader.js`
variant additionally rethrows the error to its HTTP caller. -/
theorem c8_failure_write (store : List (String × CtonewProgress))
    (downloadId errMessage : String) :
    mapGet (ctonewOnError store downloadId errMessage) downloadId
      = some { progress := 0, status := "error", message := errMessage } := by
  simp [ctonewOnError, mapGet_mapSet_self]

/-- C9 counterexample: two live subscribers for the same job: the second
`addSSEClient` silently replaces the first in the `sseClients` map, and a
publish then delivers only to the replacing connection (handle 2) — not to
every live subscriber of the job. -/
theorem c9_counterexample :
    mapGet c9Tracker.sseClients "j" = some c9ClientB ∧
    (c9Tracker.updateProgress "j" c9Data).deliveries = [(2, c9Data)] := by
  decide

/-- C9 (amended): the tracker keeps at most one subscriber per job id (a new
subscription replaces the previous one), a publish writes to at most that one
subscriber and leaves the subscriber table unchanged, and it never touches
the stored data of a different job id — write-failure cleanup happens only in
the periodic sweep, not at publish time. -/
theorem c9_publish_isolation (t : ProgressTracker) (downloadId did2 : String)
    (progressData : DlStatus) (h : did2 ≠ downloadId) :
    (t.updateProgress downloadId progressData).deliveries.length ≤ 1 ∧
    (t.updateProgress downloadId progressData).tracker.sseClients
      = t.sseClients ∧
    mapGet (t.updateProgress downloadId progressData).tracker.progressData did2
      = mapGet t.progressData did2 := by
  refine ⟨?_, rfl, ?_⟩
  · simp only [ProgressTracker.updateProgress]
    cases mapGet t.sseClients downloadId <;> simp
  · simp only [ProgressTracker.updateProgress]
    exact mapGet_mapSet_ne _ _ _ _ h

/-- C9 witness: the amended theorem applied to the two-subscription tracker
and a different job id. -/
theorem c9_publish_isolation_witness :
    ("k" : String) ≠ "j" ∧
    (c9Tracker.updateProgress "j" c9Data).deliveries.length ≤ 1 ∧
    mapGet (c9Tracker.updateProgress "j" c9Data).tracker.progressData "k"
      = mapGet c9Tracker.progressData "k" :=
  ⟨by decide, (c9_publish_isolation c9Tracker "j" "k" c9Data (by decide)).1,
    (c9_publish_isolation c9Tracker "j" "k" c9Data (by decide)).2.2⟩

end Ctonew
